import Mathlib

/-!
Shallow embedding of `roo_powersafefs` (files `src/roo_powersafefs.h`,
`src/roo_powersafefs.cpp`).

The `Guard` class is a mode-driven admission-control state machine over a
small record of fields (`mode_`, `mounted_`, and four reference counters).
`Device` is an external collaborator: its `mount()` may succeed or fail, its
`unmount()` returns nothing.  We model each Guard operation as a pure
function from the guard state (plus, where the body may call
`device_->mount()`, the boolean result that call would return) to the new
guard state together with the list of physical device calls performed, in
order.  The RAII handles `Mount` / `WriteTransaction` are modelled as records
tracking the `forced_` flag and the success/ownership boolean, and guard
reachability is a small-step relation over a configuration holding the guard
state plus the live handles.

All operations in the C++ run under a single mutex, so each whole-body
execution is one atomic step here; the mutex itself is not modelled.
-/

namespace RooPowersafefs

/-- `Guard::Mode` from `roo_powersafefs.h`. -/
inductive Mode where
  | FS_NORMAL
  | FS_EAGER_UNMOUNT
  | FS_LAME_DUCK
  | FS_SHUTDOWN
  | FS_DISABLED
  deriving DecidableEq, Repr

/-- A physical call made on the `Device` collaborator: `mount()` together
with the success flag it returned, or `unmount()`. -/
inductive DevEvent where
  | mountAttempt (result : Bool)
  | unmountCall
  deriving DecidableEq, Repr

/-- The mutable fields of `class Guard` (the mutex aside). -/
structure GuardState where
  mode : Mode
  mounted : Bool
  mount_count : Int
  forced_mount_count : Int
  write_transaction_count : Int
  forced_write_transaction_count : Int
  deriving DecidableEq, Repr

/-- `Guard::Guard(Device*)`: initial field values from the constructor. -/
def initialGuard : GuardState :=
  ⟨Mode.FS_NORMAL, false, 0, 0, 0, 0⟩

/-- `Guard::isMounted()`. -/
def isMounted (s : GuardState) : Bool :=
  s.mounted

/-- `Guard::getPendingMountsCount()`. -/
def getPendingMountsCount (s : GuardState) : Int :=
  s.mount_count

/-- `Guard::getPendingWriteTransactionsCount()`. -/
def getPendingWriteTransactionsCount (s : GuardState) : Int :=
  s.write_transaction_count

/-- `Guard::unmountIfPending()`: if `mounted_ && mount_count_ == 0`, call
`device_->unmount()` and clear `mounted_`. -/
def unmountIfPending (s : GuardState) : GuardState × List DevEvent :=
  if s.mounted = true ∧ s.mount_count = 0 then
    ({ s with mounted := false }, [DevEvent.unmountCall])
  else (s, [])

/-- `Guard::setMode(Mode mode)`.  `m` is the argument `mode`, `dres` is the
result `device_->mount()` would return if invoked.  The C++ returns early
when `mode == mode_`; otherwise it switches on `mode_` (the current mode,
not the argument), with `FS_EAGER_UNMOUNT` falling through into the
`FS_NORMAL` case, and finally assigns `mode_ = mode`.  The final assignment
is distributed into each branch here. -/
def setMode (s : GuardState) (m : Mode) (dres : Bool) : GuardState × List DevEvent :=
  if m = s.mode then (s, [])
  else
    match s.mode with
    | Mode.FS_EAGER_UNMOUNT =>
        let t := unmountIfPending s
        if t.1.mounted = false ∧ t.1.mount_count > 0 then
          ({ t.1 with mounted := dres, mode := m }, t.2 ++ [DevEvent.mountAttempt dres])
        else ({ t.1 with mode := m }, t.2)
    | Mode.FS_NORMAL =>
        if s.mounted = false ∧ s.mount_count > 0 then
          ({ s with mounted := dres, mode := m }, [DevEvent.mountAttempt dres])
        else ({ s with mode := m }, [])
    | Mode.FS_LAME_DUCK =>
        if s.mounted = false ∧ s.forced_mount_count > 0 then
          let t := unmountIfPending { s with mounted := dres }
          ({ t.1 with mode := m }, DevEvent.mountAttempt dres :: t.2)
        else
          let t := unmountIfPending s
          ({ t.1 with mode := m }, t.2)
    | Mode.FS_SHUTDOWN =>
        let t := unmountIfPending s
        ({ t.1 with mode := m }, t.2)
    | Mode.FS_DISABLED =>
        if s.mounted = true then
          ({ s with mounted := false, mode := m }, [DevEvent.unmountCall])
        else ({ s with mode := m }, [])

/-- `Guard::tryMount(bool forced)`.  Returns the new state, the boolean the
function returns, and the device calls made.  `dres` is the result
`device_->mount()` would return if invoked.  In the C++ switch, the
`FS_LAME_DUCK` case falls through into the (empty) `FS_NORMAL` /
`FS_EAGER_UNMOUNT` cases when `forced`. -/
def tryMount (s : GuardState) (forced : Bool) (dres : Bool) :
    (GuardState × Bool) × List DevEvent :=
  if s.mode = Mode.FS_DISABLED ∨ s.mode = Mode.FS_SHUTDOWN then ((s, false), [])
  else if s.mode = Mode.FS_LAME_DUCK ∧ forced = false then ((s, false), [])
  else
    let t : GuardState × List DevEvent :=
      if s.mounted = false then ({ s with mounted := dres }, [DevEvent.mountAttempt dres])
      else (s, [])
    if t.1.mounted = true then
      (({ t.1 with
            mount_count := t.1.mount_count + 1,
            forced_mount_count := t.1.forced_mount_count + (if forced = true then 1 else 0) },
        true), t.2)
    else ((t.1, false), t.2)

/-- `Guard::unmount(bool forced)` (the release path of a successful
`Mount`): decrement `mount_count_` (and `forced_mount_count_` if forced);
then if `mounted_ && mount_count_ == 0 && mode_ != FS_NORMAL`, call
`device_->unmount()` and clear `mounted_`. -/
def unmount (s : GuardState) (forced : Bool) : GuardState × List DevEvent :=
  let t : GuardState :=
    { s with
        mount_count := s.mount_count - 1,
        forced_mount_count := s.forced_mount_count - (if forced = true then 1 else 0) }
  if t.mounted = true ∧ t.mount_count = 0 ∧ t.mode ≠ Mode.FS_NORMAL then
    ({ t with mounted := false }, [DevEvent.unmountCall])
  else (t, [])

/-- `Guard::tryBeginWriteTransaction(bool forced)`.  The body makes no
device calls, so the event list is always empty. -/
def tryBeginWriteTransaction (s : GuardState) (forced : Bool) :
    (GuardState × Bool) × List DevEvent :=
  if s.mounted = false then ((s, false), [])
  else if s.mode = Mode.FS_DISABLED ∨ s.mode = Mode.FS_SHUTDOWN then ((s, false), [])
  else if s.mode = Mode.FS_LAME_DUCK ∧ forced = false then ((s, false), [])
  else
    (({ s with
          write_transaction_count := s.write_transaction_count + 1,
          forced_write_transaction_count :=
            s.forced_write_transaction_count + (if forced = true then 1 else 0) },
      true), [])

/-- `Guard::endWriteTransaction(bool forced)`: decrement
`write_transaction_count_` (and `forced_write_transaction_count_` if
forced).  No device calls. -/
def endWriteTransaction (s : GuardState) (forced : Bool) : GuardState × List DevEvent :=
  ({ s with
      write_transaction_count := s.write_transaction_count - 1,
      forced_write_transaction_count :=
        s.forced_write_transaction_count - (if forced = true then 1 else 0) },
   [])

/-- The `Mount` RAII handle: its `forced_` flag and its `mounted_` flag
(true while this instance owns a successful acquisition; a move clears it
on the source). -/
structure Mount where
  forced : Bool
  mounted : Bool
  deriving DecidableEq, Repr

/-- The `WriteTransaction` RAII handle: its `forced_` flag and its
`active_` flag (true while this instance owns an active acquisition; a move
clears it on the source). -/
structure WriteTransaction where
  forced : Bool
  active : Bool
  deriving DecidableEq, Repr

/-- A configuration: the guard state together with the live `Mount` and
`WriteTransaction` handles (in arbitrary order). -/
structure Config where
  st : GuardState
  liveMounts : List Mount
  liveWrites : List WriteTransaction
  deriving DecidableEq, Repr

/-- Reachable configurations: start from a freshly constructed `Guard` with
no handles; any sequence of `setMode` calls and handle constructions, moves
and destructions may follow.  Handle construction runs the `Mount` /
`WriteTransaction` constructor (which calls `tryMount` /
`tryBeginWriteTransaction` and records the result in the handle); a move
constructs a copy and clears the success flag of the source; destruction
releases (calls `Guard::unmount` / `Guard::endWriteTransaction`) iff the
handle still owns a successful acquisition.  Reorder steps let any live
handle be operated on, since handles are destroyed in arbitrary order. -/
inductive Reach : Config → Prop where
  | init : Reach ⟨initialGuard, [], []⟩
  | set_mode (c : Config) (m : Mode) (dres : Bool) : Reach c →
      Reach ⟨(setMode c.st m dres).1, c.liveMounts, c.liveWrites⟩
  | mount_new (c : Config) (forced dres : Bool) : Reach c →
      Reach ⟨(tryMount c.st forced dres).1.1,
             ⟨forced, (tryMount c.st forced dres).1.2⟩ :: c.liveMounts, c.liveWrites⟩
  | mount_move (c : Config) (h : Mount) (rest : List Mount) : Reach c →
      c.liveMounts = h :: rest →
      Reach ⟨c.st, ⟨h.forced, h.mounted⟩ :: ⟨h.forced, false⟩ :: rest, c.liveWrites⟩
  | mount_destroy (c : Config) (h : Mount) (rest : List Mount) : Reach c →
      c.liveMounts = h :: rest →
      Reach ⟨if h.mounted = true then (unmount c.st h.forced).1 else c.st, rest, c.liveWrites⟩
  | mount_reorder (c : Config) (ms : List Mount) : Reach c →
      c.liveMounts.Perm ms →
      Reach ⟨c.st, ms, c.liveWrites⟩
  | write_new (c : Config) (forced : Bool) : Reach c →
      Reach ⟨(tryBeginWriteTransaction c.st forced).1.1, c.liveMounts,
             ⟨forced, (tryBeginWriteTransaction c.st forced).1.2⟩ :: c.liveWrites⟩
  | write_move (c : Config) (h : WriteTransaction) (rest : List WriteTransaction) : Reach c →
      c.liveWrites = h :: rest →
      Reach ⟨c.st, c.liveMounts, ⟨h.forced, h.active⟩ :: ⟨h.forced, false⟩ :: rest⟩
  | write_destroy (c : Config) (h : WriteTransaction) (rest : List WriteTransaction) : Reach c →
      c.liveWrites = h :: rest →
      Reach ⟨if h.active = true then (endWriteTransaction c.st h.forced).1 else c.st,
             c.liveMounts, rest⟩
  | write_reorder (c : Config) (ws : List WriteTransaction) : Reach c →
      c.liveWrites.Perm ws →
      Reach ⟨c.st, c.liveMounts, ws⟩

/-! ### Helper lemmas -/

theorem setMode_counts (s : GuardState) (m : Mode) (dres : Bool) :
    (setMode s m dres).1.mount_count = s.mount_count ∧
    (setMode s m dres).1.forced_mount_count = s.forced_mount_count ∧
    (setMode s m dres).1.write_transaction_count = s.write_transaction_count ∧
    (setMode s m dres).1.forced_write_transaction_count = s.forced_write_transaction_count := by
  obtain ⟨md, mt, mc, fmc, wc, fwc⟩ := s
  cases md <;> simp [setMode, unmountIfPending] <;> split_ifs <;> simp

theorem tryMount_counts (s : GuardState) (forced dres : Bool) :
    (tryMount s forced dres).1.1.mount_count =
      s.mount_count + (if (tryMount s forced dres).1.2 = true then 1 else 0) ∧
    (tryMount s forced dres).1.1.write_transaction_count = s.write_transaction_count := by
  obtain ⟨md, mt, mc, fmc, wc, fwc⟩ := s
  cases md <;> cases mt <;> cases forced <;> cases dres <;> simp [tryMount]

theorem unmount_counts (s : GuardState) (forced : Bool) :
    (unmount s forced).1.mount_count = s.mount_count - 1 ∧
    (unmount s forced).1.write_transaction_count = s.write_transaction_count := by
  obtain ⟨md, mt, mc, fmc, wc, fwc⟩ := s
  simp [unmount]
  split_ifs <;> simp

theorem tryBeginWriteTransaction_counts (s : GuardState) (forced : Bool) :
    (tryBeginWriteTransaction s forced).1.1.mount_count = s.mount_count ∧
    (tryBeginWriteTransaction s forced).1.1.write_transaction_count =
      s.write_transaction_count +
        (if (tryBeginWriteTransaction s forced).1.2 = true then 1 else 0) := by
  obtain ⟨md, mt, mc, fmc, wc, fwc⟩ := s
  cases md <;> cases mt <;> cases forced <;> simp [tryBeginWriteTransaction]

theorem endWriteTransaction_counts (s : GuardState) (forced : Bool) :
    (endWriteTransaction s forced).1.mount_count = s.mount_count ∧
    (endWriteTransaction s forced).1.write_transaction_count =
      s.write_transaction_count - 1 := by
  exact ⟨rfl, rfl⟩

/-! ### Claim theorems -/

/-- Claim C9: when the requested mode equals the current mode, `setMode` is
a no-op: no device calls, and `mode`, `mounted` and all four counters are
unchanged. -/
theorem c9_setMode_same_mode_noop (s : GuardState) (dres : Bool) :
    setMode s s.mode dres = (s, []) := by
  simp [setMode]

/-- Claim C10: `endWriteTransaction(forced)` decrements
`write_transaction_count` (and `forced_write_transaction_count` iff
`forced`), performs no device call, and leaves `mode`, `mounted`,
`mount_count` and `forced_mount_count` unchanged. -/
theorem c10_endWriteTransaction_frame (s : GuardState) (forced : Bool) :
    (endWriteTransaction s forced).1.write_transaction_count =
      s.write_transaction_count - 1 ∧
    (endWriteTransaction s forced).1.forced_write_transaction_count =
      s.forced_write_transaction_count - (if forced = true then 1 else 0) ∧
    (endWriteTransaction s forced).1.mode = s.mode ∧
    (endWriteTransaction s forced).1.mounted = s.mounted ∧
    (endWriteTransaction s forced).1.mount_count = s.mount_count ∧
    (endWriteTransaction s forced).1.forced_mount_count = s.forced_mount_count ∧
    (endWriteTransaction s forced).2 = [] := by
  exact ⟨rfl, rfl, rfl, rfl, rfl, rfl, rfl⟩

/-- Claim C1 (code behaviour at the failing input): with the guard in
`FS_NORMAL`, mounted, and one outstanding mount handle, `setMode(FS_DISABLED)`
makes no device call at all and leaves the device mounted (`isMounted()`
stays `true`), because the transition switch dispatches on the old mode
`mode_` rather than on the new mode.  The claim (and the header's own
documentation of `FS_DISABLED`: "Immediately unmounts, even if currently in
use") requires a physical unmount here. -/
theorem c1_setMode_disabled_code_behaviour :
    setMode ⟨Mode.FS_NORMAL, true, 1, 0, 0, 0⟩ Mode.FS_DISABLED false =
      (⟨Mode.FS_DISABLED, true, 1, 0, 0, 0⟩, []) ∧
    isMounted (setMode ⟨Mode.FS_NORMAL, true, 1, 0, 0, 0⟩ Mode.FS_DISABLED false).1 = true := by
  exact ⟨by decide, by decide⟩

/-- Claim C2 (code behaviour at the failing input): with the guard in
`FS_SHUTDOWN`, unmounted, and one stranded mount handle,
`setMode(FS_NORMAL)` never calls `Device::mount()` (even though the device
would accept the mount, `dres = true`) and leaves the device unmounted,
because the transition switch dispatches on the old mode `mode_` rather
than on the new mode.  The claim requires a remount on entry to
`FS_NORMAL`. -/
theorem c2_setMode_normal_code_behaviour :
    setMode ⟨Mode.FS_SHUTDOWN, false, 1, 0, 0, 0⟩ Mode.FS_NORMAL true =
      (⟨Mode.FS_NORMAL, false, 1, 0, 0, 0⟩, []) ∧
    isMounted (setMode ⟨Mode.FS_SHUTDOWN, false, 1, 0, 0, 0⟩ Mode.FS_NORMAL true).1 = false := by
  exact ⟨by decide, by decide⟩

/-- Claim C6: leaving `FS_NORMAL` or `FS_EAGER_UNMOUNT` (toward any other
mode, including `FS_SHUTDOWN` or `FS_DISABLED`) while the device is not
mounted but `mount_count > 0` makes `setMode` call `Device::mount()` to
remount for the stranded handles. -/
theorem c6_setMode_leaving_normal_remounts (s : GuardState) (m : Mode) (dres : Bool)
    (hne : m ≠ s.mode) (hm : s.mode = Mode.FS_NORMAL ∨ s.mode = Mode.FS_EAGER_UNMOUNT)
    (hnm : s.mounted = false) (hc : s.mount_count > 0) :
    DevEvent.mountAttempt dres ∈ (setMode s m dres).2 := by
  obtain ⟨md, mt, mc, fmc, wc, fwc⟩ := s
  simp only at hnm hc
  subst hnm
  rcases hm with hm | hm <;> simp only at hm <;> subst hm <;>
    simp [setMode, unmountIfPending, hne, hc]

theorem c6_setMode_leaving_normal_remounts_witness :
    (Mode.FS_DISABLED ≠ (⟨Mode.FS_NORMAL, false, 1, 0, 0, 0⟩ : GuardState).mode) ∧
    DevEvent.mountAttempt true ∈
      (setMode ⟨Mode.FS_NORMAL, false, 1, 0, 0, 0⟩ Mode.FS_DISABLED true).2 :=
  ⟨by decide,
   c6_setMode_leaving_normal_remounts ⟨Mode.FS_NORMAL, false, 1, 0, 0, 0⟩
     Mode.FS_DISABLED true (by decide) (Or.inl rfl) rfl (by norm_num)⟩

/-- Claim C3 (counterexample): a reachable quiescent configuration in which
a write transaction is still live (`write_transaction_count = 1 > 0`) but
the device is not mounted.  Trace: `setMode(FS_EAGER_UNMOUNT)`; construct a
`Mount` (device accepts); construct a `WriteTransaction` (granted); destroy
the `Mount` — its release physically unmounts since `mount_count` drops to
0 and the mode is not `FS_NORMAL`, while `write_transaction_count` stays 1.
This refutes `write_count > 0 ⇒ mounted` as a global reachable-state
invariant. -/
theorem c3_counterexample :
    Reach ⟨⟨Mode.FS_EAGER_UNMOUNT, false, 0, 0, 1, 0⟩, [], [⟨false, true⟩]⟩ ∧
    getPendingWriteTransactionsCount ⟨Mode.FS_EAGER_UNMOUNT, false, 0, 0, 1, 0⟩ > 0 ∧
    isMounted ⟨Mode.FS_EAGER_UNMOUNT, false, 0, 0, 1, 0⟩ = false := by
  refine ⟨?_, by decide, by decide⟩
  have h0 : Reach ⟨initialGuard, [], []⟩ := Reach.init
  have h1 := Reach.set_mode _ Mode.FS_EAGER_UNMOUNT true h0
  have h2 := Reach.mount_new _ false true h1
  have h3 := Reach.write_new _ false h2
  have h4 := Reach.mount_destroy _ ⟨false, true⟩ [] h3 (by decide)
  exact h4

/-- Claim C3 (amended): the invariant holds at the instant a write is
granted — `tryBeginWriteTransaction` returns `true` only when the device is
mounted, and it is still mounted immediately afterwards. -/
theorem c3_write_granted_only_when_mounted (s : GuardState) (forced : Bool)
    (h : (tryBeginWriteTransaction s forced).1.2 = true) :
    s.mounted = true ∧ (tryBeginWriteTransaction s forced).1.1.mounted = true := by
  by_cases h1 : s.mounted = false
  · simp [tryBeginWriteTransaction, h1] at h
  · simp only [Bool.not_eq_false] at h1
    refine ⟨h1, ?_⟩
    unfold tryBeginWriteTransaction
    split_ifs <;> simp [h1]

theorem c3_write_granted_only_when_mounted_witness :
    (tryBeginWriteTransaction ⟨Mode.FS_NORMAL, true, 1, 0, 0, 0⟩ false).1.2 = true ∧
    (⟨Mode.FS_NORMAL, true, 1, 0, 0, 0⟩ : GuardState).mounted = true ∧
    (tryBeginWriteTransaction ⟨Mode.FS_NORMAL, true, 1, 0, 0, 0⟩ false).1.1.mounted = true :=
  ⟨by decide,
   (c3_write_granted_only_when_mounted ⟨Mode.FS_NORMAL, true, 1, 0, 0, 0⟩ false (by decide)).1,
   (c3_write_granted_only_when_mounted ⟨Mode.FS_NORMAL, true, 1, 0, 0, 0⟩ false (by decide)).2⟩

/-- Claim C5: `Guard::unmount(forced)` (release of a successful `Mount`)
decrements `mount_count` (and `forced_mount_count` iff `forced`), leaves
the write counters and the mode unchanged, and calls `Device::unmount()`
and clears `mounted` exactly when `mounted` was true, the new `mount_count`
is 0, and the mode is not `FS_NORMAL`.  In particular in `FS_NORMAL` the
device stays mounted after the last release, and in `FS_EAGER_UNMOUNT` the
release of the last mount handle clears `isMounted()`. -/
theorem c5_unmount_spec (s : GuardState) (forced : Bool) :
    (unmount s forced).1.mount_count = s.mount_count - 1 ∧
    (unmount s forced).1.forced_mount_count =
      s.forced_mount_count - (if forced = true then 1 else 0) ∧
    (unmount s forced).1.write_transaction_count = s.write_transaction_count ∧
    (unmount s forced).1.forced_write_transaction_count =
      s.forced_write_transaction_count ∧
    (unmount s forced).1.mode = s.mode ∧
    ((s.mounted = true ∧ s.mount_count - 1 = 0 ∧ s.mode ≠ Mode.FS_NORMAL) →
      ((unmount s forced).2 = [DevEvent.unmountCall] ∧
       isMounted (unmount s forced).1 = false)) ∧
    (¬ (s.mounted = true ∧ s.mount_count - 1 = 0 ∧ s.mode ≠ Mode.FS_NORMAL) →
      ((unmount s forced).2 = [] ∧ isMounted (unmount s forced).1 = s.mounted)) ∧
    (s.mode = Mode.FS_NORMAL → isMounted (unmount s forced).1 = s.mounted) ∧
    ((s.mode = Mode.FS_EAGER_UNMOUNT ∧ s.mounted = true ∧ s.mount_count = 1) →
      isMounted (unmount s forced).1 = false) := by
  obtain ⟨md, mt, mc, fmc, wc, fwc⟩ := s
  simp only [unmount, isMounted]
  split_ifs with h <;> simp_all <;>
    (intro hmd hmt hmc
     have h2 := h hmt (by omega)
     rw [hmd] at h2
     exact absurd h2 (by decide))

theorem c5_unmount_spec_witness :
    ((⟨Mode.FS_EAGER_UNMOUNT, true, 1, 0, 0, 0⟩ : GuardState).mounted = true ∧
      (⟨Mode.FS_EAGER_UNMOUNT, true, 1, 0, 0, 0⟩ : GuardState).mount_count - 1 = 0 ∧
      (⟨Mode.FS_EAGER_UNMOUNT, true, 1, 0, 0, 0⟩ : GuardState).mode ≠ Mode.FS_NORMAL) ∧
    (unmount ⟨Mode.FS_EAGER_UNMOUNT, true, 1, 0, 0, 0⟩ false).2 = [DevEvent.unmountCall] ∧
    isMounted (unmount ⟨Mode.FS_EAGER_UNMOUNT, true, 1, 0, 0, 0⟩ false).1 = false :=
  ⟨by decide,
   ((c5_unmount_spec ⟨Mode.FS_EAGER_UNMOUNT, true, 1, 0, 0, 0⟩ false).2.2.2.2.2.1
      (by decide)).1,
   ((c5_unmount_spec ⟨Mode.FS_EAGER_UNMOUNT, true, 1, 0, 0, 0⟩ false).2.2.2.2.2.1
      (by decide)).2⟩

/-- Claim C4: full functional behaviour of `Guard::tryMount(forced)`.
Denied with no side effects (no device call, no field change) in
`FS_DISABLED` / `FS_SHUTDOWN`, and in `FS_LAME_DUCK` when not forced.
Otherwise `Device::mount()` is attempted only if not already mounted; the
call returns `true` with `mount_count` incremented (and
`forced_mount_count` incremented iff forced) exactly when the device is
then mounted, else `false` with all counters unchanged. -/
theorem c4_tryMount_spec (s : GuardState) (forced dres : Bool) :
    (((s.mode = Mode.FS_DISABLED ∨ s.mode = Mode.FS_SHUTDOWN) ∨
        (s.mode = Mode.FS_LAME_DUCK ∧ forced = false)) →
      tryMount s forced dres = ((s, false), [])) ∧
    ((¬ (s.mode = Mode.FS_DISABLED ∨ s.mode = Mode.FS_SHUTDOWN) ∧
        ¬ (s.mode = Mode.FS_LAME_DUCK ∧ forced = false)) →
      ((tryMount s forced dres).2 =
          (if s.mounted = true then [] else [DevEvent.mountAttempt dres])) ∧
      ((tryMount s forced dres).1.2 = (s.mounted || dres)) ∧
      ((tryMount s forced dres).1.2 = true →
        (tryMount s forced dres).1.1 =
          { s with
              mounted := true,
              mount_count := s.mount_count + 1,
              forced_mount_count :=
                s.forced_mount_count + (if forced = true then 1 else 0) }) ∧
      ((tryMount s forced dres).1.2 = false →
        (tryMount s forced dres).1.1 = { s with mounted := false })) := by
  obtain ⟨md, mt, mc, fmc, wc, fwc⟩ := s
  cases md <;> cases mt <;> cases forced <;> cases dres <;> simp [tryMount]

theorem c4_tryMount_spec_witness :
    tryMount ⟨Mode.FS_DISABLED, true, 2, 1, 0, 0⟩ true true =
      ((⟨Mode.FS_DISABLED, true, 2, 1, 0, 0⟩, false), []) :=
  (c4_tryMount_spec ⟨Mode.FS_DISABLED, true, 2, 1, 0, 0⟩ true true).1 (Or.inl (Or.inl rfl))

/-- Claim C7: full functional behaviour of
`Guard::tryBeginWriteTransaction(forced)`.  Denied with no state change
when not mounted; when mounted, denied in `FS_DISABLED` / `FS_SHUTDOWN`,
and in `FS_LAME_DUCK` when not forced; otherwise `write_transaction_count`
is incremented (and `forced_write_transaction_count` iff forced) and the
call returns `true`.  No device operation is ever invoked (the event list
is always empty). -/
theorem c7_tryBeginWriteTransaction_spec (s : GuardState) (forced : Bool) :
    (tryBeginWriteTransaction s forced).2 = [] ∧
    (s.mounted = false → tryBeginWriteTransaction s forced = ((s, false), [])) ∧
    ((s.mounted = true ∧
        ((s.mode = Mode.FS_DISABLED ∨ s.mode = Mode.FS_SHUTDOWN) ∨
          (s.mode = Mode.FS_LAME_DUCK ∧ forced = false))) →
      tryBeginWriteTransaction s forced = ((s, false), [])) ∧
    ((s.mounted = true ∧
        ¬ (s.mode = Mode.FS_DISABLED ∨ s.mode = Mode.FS_SHUTDOWN) ∧
        ¬ (s.mode = Mode.FS_LAME_DUCK ∧ forced = false)) →
      tryBeginWriteTransaction s forced =
        (({ s with
              write_transaction_count := s.write_transaction_count + 1,
              forced_write_transaction_count :=
                s.forced_write_transaction_count + (if forced = true then 1 else 0) },
          true), [])) := by
  obtain ⟨md, mt, mc, fmc, wc, fwc⟩ := s
  cases md <;> cases mt <;> cases forced <;> simp [tryBeginWriteTransaction]

theorem c7_tryBeginWriteTransaction_spec_witness :
    tryBeginWriteTransaction ⟨Mode.FS_LAME_DUCK, true, 1, 1, 0, 0⟩ true =
      ((⟨Mode.FS_LAME_DUCK, true, 1, 1, 1, 1⟩, true), []) :=
  (c7_tryBeginWriteTransaction_spec ⟨Mode.FS_LAME_DUCK, true, 1, 1, 0, 0⟩ true).2.2.2
    ⟨rfl, by decide, by decide⟩

theorem length_filter_mounted_cons (h : Mount) (l : List Mount) :
    ((h :: l).filter fun x => x.mounted).length =
      (if h.mounted = true then 1 else 0) + (l.filter fun x => x.mounted).length := by
  cases hm : h.mounted <;> simp [List.filter_cons, hm] <;> omega

theorem length_filter_active_cons (h : WriteTransaction) (l : List WriteTransaction) :
    ((h :: l).filter fun x => x.active).length =
      (if h.active = true then 1 else 0) + (l.filter fun x => x.active).length := by
  cases hm : h.active <;> simp [List.filter_cons, hm] <;> omega

/-- Claim C8: in every reachable configuration, `getPendingMountsCount()`
equals the number of live `Mount` handles that still own a successful
acquisition (a failed handle, and a moved-from handle, own nothing), and
`getPendingWriteTransactionsCount()` equals the same for
`WriteTransaction`. -/
theorem c8_pending_counts_match_live_handles (c : Config) (hr : Reach c) :
    getPendingMountsCount c.st =
      ((c.liveMounts.filter fun h => h.mounted).length : Int) ∧
    getPendingWriteTransactionsCount c.st =
      ((c.liveWrites.filter fun h => h.active).length : Int) := by
  unfold getPendingMountsCount getPendingWriteTransactionsCount
  induction hr with
  | init => simp [initialGuard]
  | set_mode c m dres hr ih =>
      obtain ⟨hmc, _, hwc, _⟩ := setMode_counts c.st m dres
      exact ⟨by rw [hmc, ih.1], by rw [hwc, ih.2]⟩
  | mount_new c forced dres hr ih =>
      obtain ⟨hmc, hwc⟩ := tryMount_counts c.st forced dres
      refine ⟨?_, by rw [hwc, ih.2]⟩
      rw [hmc, ih.1, length_filter_mounted_cons]
      cases hb : (tryMount c.st forced dres).1.2 <;> simp [hb] <;> omega
  | mount_move c h rest hr heq ih =>
      rw [heq] at ih
      refine ⟨?_, ih.2⟩
      rw [ih.1, length_filter_mounted_cons, length_filter_mounted_cons,
        length_filter_mounted_cons]
      cases hm : h.mounted <;> simp [hm]
  | mount_destroy c h rest hr heq ih =>
      obtain ⟨ih1, ih2⟩ := ih
      rw [heq, length_filter_mounted_cons] at ih1
      obtain ⟨hmc, hwc⟩ := unmount_counts c.st h.forced
      cases hm : h.mounted
      · simp only [hm] at ih1 ⊢
        simp only [Bool.false_eq_true, if_false] at ih1 ⊢
        refine ⟨?_, ih2⟩
        push_cast at ih1 ⊢
        omega
      · simp only [hm, if_true] at ih1 ⊢
        refine ⟨?_, by rw [hwc]; exact ih2⟩
        rw [hmc]
        push_cast at ih1 ⊢
        omega
  | mount_reorder c ms hr hp ih =>
      refine ⟨?_, ih.2⟩
      dsimp only
      rw [ih.1]
      exact_mod_cast ((hp.filter fun h => h.mounted).length_eq)
  | write_new c forced hr ih =>
      obtain ⟨hmc, hwc⟩ := tryBeginWriteTransaction_counts c.st forced
      refine ⟨by rw [hmc, ih.1], ?_⟩
      rw [hwc, ih.2, length_filter_active_cons]
      cases hb : (tryBeginWriteTransaction c.st forced).1.2 <;> simp [hb] <;> omega
  | write_move c h rest hr heq ih =>
      rw [heq] at ih
      refine ⟨ih.1, ?_⟩
      rw [ih.2, length_filter_active_cons, length_filter_active_cons,
        length_filter_active_cons]
      cases hm : h.active <;> simp [hm]
  | write_destroy c h rest hr heq ih =>
      obtain ⟨ih1, ih2⟩ := ih
      rw [heq, length_filter_active_cons] at ih2
      obtain ⟨hmc, hwc⟩ := endWriteTransaction_counts c.st h.forced
      cases hm : h.active
      · simp only [hm] at ih2 ⊢
        simp only [Bool.false_eq_true, if_false] at ih2 ⊢
        refine ⟨ih1, ?_⟩
        push_cast at ih2 ⊢
        omega
      · simp only [hm, if_true] at ih2 ⊢
        refine ⟨by rw [hmc]; exact ih1, ?_⟩
        rw [hwc]
        push_cast at ih2 ⊢
        omega
  | write_reorder c ws hr hp ih =>
      refine ⟨ih.1, ?_⟩
      dsimp only
      rw [ih.2]
      exact_mod_cast ((hp.filter fun h => h.active).length_eq)

theorem c8_pending_counts_match_live_handles_witness :
    getPendingMountsCount initialGuard =
      ((([] : List Mount).filter fun h => h.mounted).length : Int) ∧
    getPendingWriteTransactionsCount initialGuard =
      ((([] : List WriteTransaction).filter fun h => h.active).length : Int) :=
  c8_pending_counts_match_live_handles ⟨initialGuard, [], []⟩ Reach.init

end RooPowersafefs
